import Mathlib

/-
Shallow embedding of `src/server.js` (an Express HTTP service exposing CRUD
over a book collection plus a news-API proxy), together with theorems about
the request handlers.

Modelling conventions:
  * JavaScript runtime values that flow through the handlers are modelled by
    the inductive type `JVal` (absent object properties are `JVal.jundefined`);
    JavaScript truthiness is `truthy`.  The numeric `NaN` value has no
    representative (numbers are modelled by `Int`).
  * The document store (mongoose/MongoDB) is an external collaborator; it is
    modelled as a reliable in-memory collection `Store` whose opaque ids are
    natural numbers assigned from a counter.  The `catch`-to-500 branches for
    store connection failures are outside this model.
  * Each book handler returns a `HandlerResult`: its HTTP response, the store
    state after the request, and the trace of document-store calls it issued.
  * The upstream news provider is an external collaborator: a request handler
    observes a `FetchOutcome` (transport error, or a response carrying an `ok`
    flag and a body whose JSON parse may itself fail).
  * `res.json(x)` is modelled as an `HttpResponse` whose `body` field is the
    JavaScript value `x` handed to Express for serialization.
  * `JSON.stringify(x, null, 2)` is modelled by `serialize`, following the
    ECMAScript serialization algorithm with a two-space gap.
-/

namespace BookNews

/-- JavaScript values as they occur in the service: `undefined`, `null`,
booleans, numbers (modelled by `Int`), strings, arrays and plain objects. -/
inductive JVal where
  | jundefined
  | jnull
  | jbool (b : Bool)
  | jnum (n : Int)
  | jstr (s : String)
  | jarr (elems : List JVal)
  | jobj (fields : List (String × JVal))

/-- JavaScript truthiness: `undefined`, `null`, `false`, `0` and `""` are
falsy; every other modelled value is truthy. -/
def truthy : JVal → Bool
  | .jundefined => false
  | .jnull => false
  | .jbool b => b
  | .jnum n => n != 0
  | .jstr s => s != ""
  | .jarr _ => true
  | .jobj _ => true

/-- JavaScript property access `v[k]`: throws (models a `TypeError`) on
`undefined`/`null`, returns the property (or `undefined`) on objects, and
returns `undefined` on the remaining primitives (none of the property names
used by the service exists on primitives). -/
def getField : JVal → String → Except Unit JVal
  | .jundefined, _ => .error ()
  | .jnull, _ => .error ()
  | .jobj fs, k => .ok ((fs.lookup k).getD .jundefined)
  | _, _ => .ok .jundefined

/-- Escaping of a character inside a JSON string literal. -/
def escapeChar (c : Char) : String :=
  if c = '"' then "\\\""
  else if c = '\\' then "\\\\"
  else if c = '\n' then "\\n"
  else if c = '\r' then "\\r"
  else if c = '\t' then "\\t"
  else String.singleton c

/-- A JSON string literal: surrounding quotes plus escaped contents. -/
def quoteString (s : String) : String :=
  "\"" ++ String.join (s.data.map escapeChar) ++ "\""

/-- The indentation produced by `JSON.stringify(_, null, 2)` at depth `d`. -/
def jsonIndent (d : Nat) : String :=
  String.join (List.replicate d "  ")

/-- Bracketing used by `JSON.stringify(_, null, 2)`: an empty composite
prints as the bare brackets; a non-empty one puts every part on its own
indented line. -/
def serializeWrap (openB closeB : String) (d : Nat) (parts : List String) : String :=
  if parts.isEmpty then openB ++ closeB
  else
    openB ++ "\n" ++ jsonIndent (d + 1)
      ++ String.intercalate (",\n" ++ jsonIndent (d + 1)) parts
      ++ "\n" ++ jsonIndent d ++ closeB

mutual

/-- `JSON.stringify(v, null, 2)` at nesting depth `d`; `none` models the
`undefined` result (an `undefined` argument). -/
def serialize (d : Nat) : JVal → Option String
  | .jundefined => none
  | .jnull => some "null"
  | .jbool b => some (if b then "true" else "false")
  | .jnum n => some (toString n)
  | .jstr s => some (quoteString s)
  | .jarr xs => some (serializeWrap "[" "]" d (serializeItems (d + 1) xs))
  | .jobj fs => some (serializeWrap "\x7b" "\x7d" d (serializeEntries (d + 1) fs))

/-- Array elements of `JSON.stringify`: an element serializing to
`undefined` prints as `null`. -/
def serializeItems (d : Nat) : List JVal → List String
  | [] => []
  | x :: xs => ((serialize d x).getD "null") :: serializeItems d xs

/-- Object members of `JSON.stringify`: a member whose value serializes to
`undefined` is dropped; the others print as `"key": value`. -/
def serializeEntries (d : Nat) : List (String × JVal) → List String
  | [] => []
  | (k, v) :: fs =>
      match serialize d v with
      | none => serializeEntries d fs
      | some s => (quoteString k ++ ": " ++ s) :: serializeEntries d fs

end

/-- An HTTP response as produced by the handlers: status code plus the
JavaScript value passed to `res.json`. -/
structure HttpResponse where
  status : Nat
  body : JVal

/- ------------------------------------------------------------------ -/
/- News proxy: `app.get('/news')`, src/server.js lines 37-65.          -/
/- ------------------------------------------------------------------ -/

/-- What the handler observes from `fetch(apiUrl)` followed by
`response.json()`: either the fetch promise rejects (transport error), or a
response arrives carrying `response.ok` and a body whose JSON parse either
yields a value or throws. -/
inductive FetchOutcome where
  | transportError
  | response (ok : Bool) (body : Except Unit JVal)

/-- The constant error payload of the news endpoint
(`res.status(500).json(...)` in both the non-ok branch and the catch). -/
def newsErrorBody : JVal :=
  .jobj [("error", .jstr "Error fetching news. Try again later.")]

/-- The per-article reshaping inside `data.articles.map(...)`: property
accesses in the evaluation order of the object literal, erroring exactly
where JavaScript would throw (e.g. `article.source.name` on a missing
`source`). -/
def reshapeArticle (article : JVal) : Except Unit JVal := do
  let title ← getField article "title"
  let description ← getField article "description"
  let sourceObj ← getField article "source"
  let sourceName ← getField sourceObj "name"
  let url ← getField article "url"
  let publishedAt ← getField article "publishedAt"
  pure (.jobj [("title", title), ("description", description),
               ("source", sourceName), ("url", url), ("publishedAt", publishedAt)])

/-- `data.articles.map(...)`: calling `.map` on anything but an array
throws. -/
def mapArticles : JVal → Except Unit (List JVal)
  | .jarr xs => xs.mapM reshapeArticle
  | _ => .error ()

/-- The `response.ok` branch of the news handler: reshape the articles, then
build `{ totalResults: data.totalResults, articles }`, stringify it with
two-space indentation and hand the resulting *string* to `res.json`. -/
def newsSuccessResponse (data : JVal) : Except Unit HttpResponse :=
  match getField data "articles" with
  | .error e => .error e
  | .ok articlesVal =>
      match mapArticles articlesVal with
      | .error e => .error e
      | .ok articles =>
          match getField data "totalResults" with
          | .error e => .error e
          | .ok totalResults =>
              .ok { status := 200,
                    body := .jstr ((serialize 0
                      (.jobj [("totalResults", totalResults),
                              ("articles", .jarr articles)])).getD "undefined") }

/-- The body of `app.get('/news')` from the point where the upstream outcome
is known: parse failures and thrown reshaping errors reach the `catch`, a
non-ok response reaches the `else`; all three produce the same 500. -/
def getNews (fetched : FetchOutcome) : HttpResponse :=
  match fetched with
  | .transportError => { status := 500, body := newsErrorBody }
  | .response ok bodyE =>
      match bodyE with
      | .error _ => { status := 500, body := newsErrorBody }
      | .ok data =>
          if ok then
            match newsSuccessResponse data with
            | .ok r => r
            | .error _ => { status := 500, body := newsErrorBody }
          else { status := 500, body := newsErrorBody }

/-- JavaScript template-literal interpolation of the credential
`${NEWS_API_KEY}`: an unset environment variable is `undefined` and
interpolates as the literal text `undefined`. -/
def interpolateKey : Option String → String
  | some k => k
  | none => "undefined"

/-- Truthiness of an optional query-string parameter (`undefined` and the
empty string are falsy). -/
def optTruthy : Option String → Bool
  | none => false
  | some s => s != ""

/-- The upstream URL template of src/server.js line 42: each filter segment
is included exactly when the parameter is truthy, followed by the `apiKey`
parameter. -/
def buildNewsUrl (query category country : Option String) (apiKey : String) : String :=
  "https://newsapi.org/v2/top-headlines?"
    ++ (if optTruthy query then "q=" ++ query.getD "" ++ "&" else "")
    ++ (if optTruthy category then "category=" ++ category.getD "" ++ "&" else "")
    ++ (if optTruthy country then "country=" ++ country.getD "" ++ "&" else "")
    ++ "apiKey=" ++ apiKey

/-- The whole `/news` handler: build the upstream URL from the request's
query parameters and the configured credential, perform the fetch (the
environment provides its outcome), then translate the outcome. -/
def newsHandler (query category country : Option String) (newsApiKey : Option String)
    (fetch : String → FetchOutcome) : HttpResponse :=
  getNews (fetch (buildNewsUrl query category country (interpolateKey newsApiKey)))

/- Observation of the URL actually sent upstream: split the query string
into its `&`-separated `name=value` parameters. -/

/-- Split a character list at every occurrence of `sep` (the separator is
consumed). -/
def splitOnChar (sep : Char) : List Char → List (List Char)
  | [] => [[]]
  | c :: cs =>
      match splitOnChar sep cs with
      | [] => [[]]
      | p :: ps => if c = sep then [] :: p :: ps else (c :: p) :: ps

/-- The part of a URL after the first `?`. -/
def queryPart (u : String) : List Char :=
  (u.data.dropWhile (fun c => !(c = '?'))).drop 1

/-- The name of a `name=value` query parameter. -/
def paramName (seg : List Char) : List Char :=
  seg.takeWhile (fun c => !(c = '='))

/-- The value of a `name=value` query parameter. -/
def paramValue (seg : List Char) : List Char :=
  (seg.dropWhile (fun c => !(c = '='))).drop 1

/-- The `name=value` parameters carried by a URL's query string. -/
def urlParams (u : String) : List (List Char × List Char) :=
  (splitOnChar '&' (queryPart u)).map (fun seg => (paramName seg, paramValue seg))

/- ------------------------------------------------------------------ -/
/- Book CRUD: src/server.js lines 17-34 and 67-124.                    -/
/- ------------------------------------------------------------------ -/

/-- The four body fields destructured from `req.body`; an absent property is
`JVal.jundefined`. -/
structure BookBody where
  title : JVal
  author : JVal
  year : JVal
  genre : JVal

/-- The router-level presence check shared by POST and PUT:
`!title || !author || !year || !genre`. -/
def missingField (b : BookBody) : Bool :=
  !truthy b.title || !truthy b.author || !truthy b.year || !truthy b.genre

/-- A persisted book record: the store-assigned opaque id plus the four
fields of the `bookSchema`. -/
structure StoredBook where
  id : Nat
  title : JVal
  author : JVal
  year : JVal
  genre : JVal

/-- The document store's book collection, with the counter from which fresh
ids are assigned. -/
structure Store where
  nextId : Nat
  docs : List StoredBook

/-- A document-store operation issued by a handler (used to observe, per
request, which store calls were attempted). -/
inductive StoreCall where
  | findAll
  | save (doc : StoredBook)
  | findByIdAndUpdate (id : Nat) (fields : BookBody)
  | findByIdAndDelete (id : Nat)

/-- What a book handler produces: the HTTP response, the store state after
the request, and the trace of store calls the handler issued. -/
structure HandlerResult where
  resp : HttpResponse
  store : Store
  calls : List StoreCall

/-- Serialization of a stored record as returned by `res.json` (the
store-assigned id appears as `_id`). -/
def bookToJVal (d : StoredBook) : JVal :=
  .jobj [("_id", .jnum d.id), ("title", d.title), ("author", d.author),
         ("year", d.year), ("genre", d.genre)]

/-- The 400 payload of POST and PUT. -/
def validationErrorBody : JVal := .jobj [("message", .jstr "All fields are required")]

/-- The 404 payload of PUT and DELETE. -/
def notFoundBody : JVal := .jobj [("message", .jstr "Book not found")]

/-- The DELETE success payload. -/
def deletedBody : JVal := .jobj [("message", .jstr "Book deleted successfully")]

/-- `Book.findByIdAndUpdate(id, fields, { new: true })` against the
collection: replace the four fields on the matching record, returning the
post-update record and collection, or `none` when no record matches. -/
def updateById (id : Nat) (b : BookBody) : List StoredBook → Option (StoredBook × List StoredBook)
  | [] => none
  | d :: ds =>
      if d.id = id then
        some (⟨d.id, b.title, b.author, b.year, b.genre⟩,
              ⟨d.id, b.title, b.author, b.year, b.genre⟩ :: ds)
      else
        match updateById id b ds with
        | none => none
        | some (u, rest) => some (u, d :: rest)

/-- `Book.findByIdAndDelete(id)` against the collection: remove the matching
record, returning it and the remaining collection, or `none` when no record
matches. -/
def deleteById (id : Nat) : List StoredBook → Option (StoredBook × List StoredBook)
  | [] => none
  | d :: ds =>
      if d.id = id then some (d, ds)
      else
        match deleteById id ds with
        | none => none
        | some (x, rest) => some (x, d :: rest)

/-- `app.get('/books')`: list every record. -/
def getBooks (st : Store) : HandlerResult :=
  ⟨⟨200, .jarr (st.docs.map bookToJVal)⟩, st, [.findAll]⟩

/-- `app.post('/books')`: presence check, then insert a record with a fresh
id and respond 201 with the stored record. -/
def postBooks (st : Store) (body : BookBody) : HandlerResult :=
  if missingField body then
    ⟨⟨400, validationErrorBody⟩, st, []⟩
  else
    ⟨⟨201, bookToJVal ⟨st.nextId, body.title, body.author, body.year, body.genre⟩⟩,
     ⟨st.nextId + 1, st.docs ++ [⟨st.nextId, body.title, body.author, body.year, body.genre⟩]⟩,
     [.save ⟨st.nextId, body.title, body.author, body.year, body.genre⟩]⟩

/-- `app.put('/books/:id')`: presence check, then `findByIdAndUpdate`; a
missing record gives 404, otherwise 200 with the post-update record. -/
def putBooks (st : Store) (id : Nat) (body : BookBody) : HandlerResult :=
  if missingField body then
    ⟨⟨400, validationErrorBody⟩, st, []⟩
  else
    match updateById id body st.docs with
    | none => ⟨⟨404, notFoundBody⟩, st, [.findByIdAndUpdate id body]⟩
    | some (u, docs2) =>
        ⟨⟨200, bookToJVal u⟩, ⟨st.nextId, docs2⟩, [.findByIdAndUpdate id body]⟩

/-- `app.delete('/books/:id')`: `findByIdAndDelete`; a missing record gives
404, otherwise 200 with the confirmation message. -/
def deleteBooks (st : Store) (id : Nat) : HandlerResult :=
  match deleteById id st.docs with
  | none => ⟨⟨404, notFoundBody⟩, st, [.findByIdAndDelete id]⟩
  | some (_, docs2) => ⟨⟨200, deletedBody⟩, ⟨st.nextId, docs2⟩, [.findByIdAndDelete id]⟩

/-- A body field that is a present, non-empty string. -/
def presentStr (v : JVal) : Prop := ∃ s : String, v = .jstr s ∧ s ≠ ""

/-- A body field that is a present, non-zero number. -/
def presentNum (v : JVal) : Prop := ∃ n : Int, v = .jnum n ∧ n ≠ 0

/-- A body field that was omitted or left empty. -/
def omittedOrEmpty (v : JVal) : Prop := v = .jundefined ∨ v = .jstr ""


/- ------------------------------------------------------------------ -/
/- Helper lemmas (shared).                                             -/
/- ------------------------------------------------------------------ -/

theorem truthy_of_presentStr (v : JVal) (h : presentStr v) : truthy v = true := by
  obtain ⟨s, rfl, hs⟩ := h
  simp [truthy, hs]

theorem truthy_of_presentNum (v : JVal) (h : presentNum v) : truthy v = true := by
  obtain ⟨n, rfl, hn⟩ := h
  simp [truthy, hn]

theorem truthy_of_omittedOrEmpty (v : JVal) (h : omittedOrEmpty v) : truthy v = false := by
  rcases h with rfl | rfl <;> simp [truthy]

theorem missingField_false (b : BookBody) (h1 : truthy b.title = true)
    (h2 : truthy b.author = true) (h3 : truthy b.year = true)
    (h4 : truthy b.genre = true) : missingField b = false := by
  simp [missingField, h1, h2, h3, h4]

theorem missingField_true (b : BookBody)
    (h : omittedOrEmpty b.title ∨ omittedOrEmpty b.author ∨ omittedOrEmpty b.year
        ∨ omittedOrEmpty b.genre) : missingField b = true := by
  rcases h with h | h | h | h <;>
    simp [missingField, truthy_of_omittedOrEmpty _ h]

theorem updateById_none (id : Nat) (b : BookBody) (ds : List StoredBook)
    (h : ∀ d ∈ ds, d.id ≠ id) : updateById id b ds = none := by
  induction ds with
  | nil => rfl
  | cons d ds ih =>
      have hd : d.id ≠ id := h d (by simp)
      simp [updateById, hd, ih (fun x hx => h x (by simp [hx]))]

theorem deleteById_none (id : Nat) (ds : List StoredBook)
    (h : ∀ d ∈ ds, d.id ≠ id) : deleteById id ds = none := by
  induction ds with
  | nil => rfl
  | cons d ds ih =>
      have hd : d.id ≠ id := h d (by simp)
      simp [deleteById, hd, ih (fun x hx => h x (by simp [hx]))]

theorem updateById_found (id : Nat) (b : BookBody) (ds : List StoredBook)
    (h : ∃ d ∈ ds, d.id = id) :
    ∃ rest, updateById id b ds = some (⟨id, b.title, b.author, b.year, b.genre⟩, rest)
      ∧ (⟨id, b.title, b.author, b.year, b.genre⟩ : StoredBook) ∈ rest := by
  induction ds with
  | nil => simp at h
  | cons d ds ih =>
      by_cases hd : d.id = id
      · refine ⟨⟨d.id, b.title, b.author, b.year, b.genre⟩ :: ds, ?_, ?_⟩
        · simp [updateById, hd]
        · simp [hd]
      · obtain ⟨x, hx, hxid⟩ := h
        rcases List.mem_cons.mp hx with rfl | hxs
        · exact absurd hxid hd
        · obtain ⟨rest, hrest, hmem⟩ := ih ⟨x, hxs, hxid⟩
          exact ⟨d :: rest, by simp [updateById, hd, hrest], by simp [hmem]⟩

theorem deleteById_excludes (id : Nat) (ds : List StoredBook)
    (hnd : (ds.map StoredBook.id).Nodup) :
    (deleteById id ds = none ∧ ∀ d ∈ ds, d.id ≠ id)
    ∨ (∃ x rest, deleteById id ds = some (x, rest) ∧ ∀ d ∈ rest, d.id ≠ id) := by
  induction ds with
  | nil => exact Or.inl ⟨rfl, by simp⟩
  | cons d ds ih =>
      have hnotin : d.id ∉ ds.map StoredBook.id := (List.nodup_cons.mp hnd).1
      have hnd' : (ds.map StoredBook.id).Nodup := (List.nodup_cons.mp hnd).2
      by_cases hd : d.id = id
      · refine Or.inr ⟨d, ds, by simp [deleteById, hd], fun x hx => ?_⟩
        intro hxid
        exact hnotin (hd ▸ hxid ▸ List.mem_map_of_mem StoredBook.id hx)
      · rcases ih hnd' with ⟨hnone, hall⟩ | ⟨x, rest, hsome, hall⟩
        · refine Or.inl ⟨by simp [deleteById, hd, hnone], ?_⟩
          intro e he
          rcases List.mem_cons.mp he with rfl | hes
          · exact hd
          · exact hall e hes
        · refine Or.inr ⟨x, d :: rest, by simp [deleteById, hd, hsome], ?_⟩
          intro e he
          rcases List.mem_cons.mp he with rfl | hes
          · exact hd
          · exact hall e hes

/- ------------------------------------------------------------------ -/
/- Claim theorems: book endpoints.                                     -/
/- ------------------------------------------------------------------ -/

/-- C1: a POST /books request whose four body fields are all present and
non-empty (non-empty strings for title/author/genre, a non-zero number for
year) is answered 201 with the stored record including its assigned id, and
the record is appended to the store; a request omitting any one of the four
fields, or leaving it empty, is answered 400 with the store untouched and no
record persisted. -/
theorem c1_create_contract (st : Store) (b : BookBody) :
    (presentStr b.title → presentStr b.author → presentNum b.year → presentStr b.genre →
      postBooks st b =
        ⟨⟨201, bookToJVal ⟨st.nextId, b.title, b.author, b.year, b.genre⟩⟩,
         ⟨st.nextId + 1, st.docs ++ [⟨st.nextId, b.title, b.author, b.year, b.genre⟩]⟩,
         [.save ⟨st.nextId, b.title, b.author, b.year, b.genre⟩]⟩)
    ∧ ((omittedOrEmpty b.title ∨ omittedOrEmpty b.author ∨ omittedOrEmpty b.year
          ∨ omittedOrEmpty b.genre) →
        (postBooks st b).resp.status = 400 ∧ (postBooks st b).store = st
          ∧ (postBooks st b).calls = []) := by
  constructor
  · intro h1 h2 h3 h4
    have hm : missingField b = false :=
      missingField_false b (truthy_of_presentStr _ h1) (truthy_of_presentStr _ h2)
        (truthy_of_presentNum _ h3) (truthy_of_presentStr _ h4)
    simp [postBooks, hm]
  · intro h
    have hm : missingField b = true := missingField_true b h
    simp [postBooks, hm]

/-- Witness for C1 at a concrete store and concrete request bodies. -/
theorem c1_create_contract_witness :
    postBooks ⟨0, []⟩ ⟨.jstr "Dune", .jstr "Herbert", .jnum 1965, .jstr "SciFi"⟩ =
      ⟨⟨201, bookToJVal ⟨0, .jstr "Dune", .jstr "Herbert", .jnum 1965, .jstr "SciFi"⟩⟩,
       ⟨1, [⟨0, .jstr "Dune", .jstr "Herbert", .jnum 1965, .jstr "SciFi"⟩]⟩,
       [.save ⟨0, .jstr "Dune", .jstr "Herbert", .jnum 1965, .jstr "SciFi"⟩]⟩
    ∧ (postBooks ⟨0, []⟩ ⟨.jstr "Dune", .jstr "Herbert", .jnum 1965, .jundefined⟩).resp.status = 400
    ∧ (postBooks ⟨0, []⟩ ⟨.jstr "Dune", .jstr "Herbert", .jnum 1965, .jundefined⟩).store = ⟨0, []⟩
    ∧ (postBooks ⟨0, []⟩ ⟨.jstr "Dune", .jstr "Herbert", .jnum 1965, .jundefined⟩).calls = [] := by
  have h1 := (c1_create_contract ⟨0, []⟩
      ⟨.jstr "Dune", .jstr "Herbert", .jnum 1965, .jstr "SciFi"⟩).1
    ⟨"Dune", rfl, by decide⟩ ⟨"Herbert", rfl, by decide⟩
    ⟨1965, rfl, by decide⟩ ⟨"SciFi", rfl, by decide⟩
  have h2 := (c1_create_contract ⟨0, []⟩
      ⟨.jstr "Dune", .jstr "Herbert", .jnum 1965, .jundefined⟩).2
    (Or.inr (Or.inr (Or.inr (Or.inl rfl))))
  exact ⟨h1, h2.1, h2.2.1, h2.2.2⟩

/-- C3: for an id carried by no record in the store, PUT answers 404 (for
any request body passing the field presence check) and DELETE answers 404,
both leaving the store unchanged. -/
theorem c3_unknown_id_404 (st : Store) (id : Nat)
    (h : ∀ d ∈ st.docs, d.id ≠ id) :
    (∀ b : BookBody, missingField b = false →
        (putBooks st id b).resp.status = 404 ∧ (putBooks st id b).store = st)
    ∧ (deleteBooks st id).resp.status = 404 ∧ (deleteBooks st id).store = st := by
  refine ⟨fun b hb => ?_, ?_, ?_⟩
  · simp [putBooks, hb, updateById_none id b st.docs h]
  · simp [deleteBooks, deleteById_none id st.docs h]
  · simp [deleteBooks, deleteById_none id st.docs h]

/-- Witness for C3 at a concrete store holding one record with a different id. -/
theorem c3_unknown_id_404_witness :
    (putBooks ⟨5, [⟨1, .jstr "A", .jstr "B", .jnum 2, .jstr "C"⟩]⟩ 7
        ⟨.jstr "T", .jstr "A", .jnum 1, .jstr "G"⟩).resp.status = 404
    ∧ (putBooks ⟨5, [⟨1, .jstr "A", .jstr "B", .jnum 2, .jstr "C"⟩]⟩ 7
        ⟨.jstr "T", .jstr "A", .jnum 1, .jstr "G"⟩).store
        = ⟨5, [⟨1, .jstr "A", .jstr "B", .jnum 2, .jstr "C"⟩]⟩
    ∧ (deleteBooks ⟨5, [⟨1, .jstr "A", .jstr "B", .jnum 2, .jstr "C"⟩]⟩ 7).resp.status = 404
    ∧ (deleteBooks ⟨5, [⟨1, .jstr "A", .jstr "B", .jnum 2, .jstr "C"⟩]⟩ 7).store
        = ⟨5, [⟨1, .jstr "A", .jstr "B", .jnum 2, .jstr "C"⟩]⟩ := by
  have h := c3_unknown_id_404 ⟨5, [⟨1, .jstr "A", .jstr "B", .jnum 2, .jstr "C"⟩]⟩ 7
    (by intro d hd; simp at hd; simp [hd])
  have hp := h.1 ⟨.jstr "T", .jstr "A", .jnum 1, .jstr "G"⟩ (by decide)
  exact ⟨hp.1, hp.2, h.2.1, h.2.2⟩

/-- C7: a POST /books or PUT /books/:id request failing the field presence
check is answered 400 before any document-store operation is attempted: the
call trace is empty and the store is untouched. -/
theorem c7_validation_before_store (st : Store) (id : Nat) (b : BookBody)
    (h : missingField b = true) :
    postBooks st b = ⟨⟨400, validationErrorBody⟩, st, []⟩
    ∧ putBooks st id b = ⟨⟨400, validationErrorBody⟩, st, []⟩ := by
  constructor <;> simp [postBooks, putBooks, h]

/-- Witness for C7: a body with an absent author field. -/
theorem c7_validation_before_store_witness :
    postBooks ⟨3, []⟩ ⟨.jstr "T", .jundefined, .jnum 1, .jstr "G"⟩
        = ⟨⟨400, validationErrorBody⟩, ⟨3, []⟩, []⟩
    ∧ putBooks ⟨3, []⟩ 9 ⟨.jstr "T", .jundefined, .jnum 1, .jstr "G"⟩
        = ⟨⟨400, validationErrorBody⟩, ⟨3, []⟩, []⟩ :=
  c7_validation_before_store ⟨3, []⟩ 9 ⟨.jstr "T", .jundefined, .jnum 1, .jstr "G"⟩ (by decide)

/-- C9: a request body whose year is the number 0 (title, author and genre
being non-empty strings) is rejected 400 by both POST /books and
PUT /books/:id, because the presence check tests JavaScript falsiness; the
store is untouched and no store call is attempted. -/
theorem c9_year_zero_rejected (st : Store) (id : Nat) (t a g : String)
    (ht : t ≠ "") (ha : a ≠ "") (hg : g ≠ "") :
    postBooks st ⟨.jstr t, .jstr a, .jnum 0, .jstr g⟩ = ⟨⟨400, validationErrorBody⟩, st, []⟩
    ∧ putBooks st id ⟨.jstr t, .jstr a, .jnum 0, .jstr g⟩
        = ⟨⟨400, validationErrorBody⟩, st, []⟩ := by
  have h : missingField ⟨.jstr t, .jstr a, .jnum 0, .jstr g⟩ = true := by
    simp [missingField, truthy]
  constructor <;> simp [postBooks, putBooks, h]

/-- Witness for C9: year 0 with all other fields filled in. -/
theorem c9_year_zero_rejected_witness :
    postBooks ⟨0, []⟩ ⟨.jstr "Dune", .jstr "Herbert", .jnum 0, .jstr "SciFi"⟩
        = ⟨⟨400, validationErrorBody⟩, ⟨0, []⟩, []⟩
    ∧ putBooks ⟨0, []⟩ 4 ⟨.jstr "Dune", .jstr "Herbert", .jnum 0, .jstr "SciFi"⟩
        = ⟨⟨400, validationErrorBody⟩, ⟨0, []⟩, []⟩ :=
  c9_year_zero_rejected ⟨0, []⟩ 4 "Dune" "Herbert" "SciFi"
    (by decide) (by decide) (by decide)

/-- C4: round-trip over the store state.  After a successful create, the
listing shows the new record (the submitted fields under the assigned id);
after a successful update of an existing id, the listing shows the new
fields at that id; after a delete (ids being unique in the store), no
listed record carries the deleted id. -/
theorem c4_round_trip :
    (∀ (st : Store) (b : BookBody), missingField b = false →
        (getBooks (postBooks st b).store).resp.body
            = .jarr ((postBooks st b).store.docs.map bookToJVal)
          ∧ (⟨st.nextId, b.title, b.author, b.year, b.genre⟩ : StoredBook)
              ∈ (postBooks st b).store.docs
          ∧ bookToJVal ⟨st.nextId, b.title, b.author, b.year, b.genre⟩
              ∈ (postBooks st b).store.docs.map bookToJVal)
    ∧ (∀ (st : Store) (id : Nat) (b2 : BookBody), missingField b2 = false →
        (∃ d ∈ st.docs, d.id = id) →
        (⟨id, b2.title, b2.author, b2.year, b2.genre⟩ : StoredBook)
            ∈ (putBooks st id b2).store.docs
          ∧ bookToJVal ⟨id, b2.title, b2.author, b2.year, b2.genre⟩
              ∈ (putBooks st id b2).store.docs.map bookToJVal)
    ∧ (∀ (st : Store) (id : Nat), (st.docs.map StoredBook.id).Nodup →
        ∀ d ∈ (deleteBooks st id).store.docs, d.id ≠ id) := by
  refine ⟨fun st b hb => ?_, fun st id b2 hb2 hex => ?_, fun st id hnd => ?_⟩
  · refine ⟨rfl, ?_, ?_⟩
    · simp [postBooks, hb]
    · simp [postBooks, hb]
  · obtain ⟨rest, hrest, hmem⟩ := updateById_found id b2 st.docs hex
    have hdocs : (putBooks st id b2).store.docs = rest := by
      simp [putBooks, hb2, hrest]
    rw [hdocs]
    exact ⟨hmem, List.mem_map_of_mem bookToJVal hmem⟩
  · rcases deleteById_excludes id st.docs hnd with ⟨hnone, hall⟩ | ⟨x, rest, hsome, hall⟩
    · intro d hd
      have hst : (deleteBooks st id).store = st := by simp [deleteBooks, hnone]
      rw [hst] at hd
      exact hall d hd
    · intro d hd
      have hdocs : (deleteBooks st id).store.docs = rest := by simp [deleteBooks, hsome]
      rw [hdocs] at hd
      exact hall d hd

/-- Witness for C4: create Dune into an empty store, update record 0 in a
two-record store, and delete record 0 from that store. -/
theorem c4_round_trip_witness :
    ((getBooks (postBooks ⟨0, []⟩ ⟨.jstr "Dune", .jstr "Herbert", .jnum 1965, .jstr "SciFi"⟩).store).resp.body
        = .jarr ((postBooks ⟨0, []⟩ ⟨.jstr "Dune", .jstr "Herbert", .jnum 1965, .jstr "SciFi"⟩).store.docs.map bookToJVal)
      ∧ (⟨0, .jstr "Dune", .jstr "Herbert", .jnum 1965, .jstr "SciFi"⟩ : StoredBook)
          ∈ (postBooks ⟨0, []⟩ ⟨.jstr "Dune", .jstr "Herbert", .jnum 1965, .jstr "SciFi"⟩).store.docs
      ∧ bookToJVal ⟨0, .jstr "Dune", .jstr "Herbert", .jnum 1965, .jstr "SciFi"⟩
          ∈ (postBooks ⟨0, []⟩ ⟨.jstr "Dune", .jstr "Herbert", .jnum 1965, .jstr "SciFi"⟩).store.docs.map bookToJVal)
    ∧ ((⟨0, .jstr "T2", .jstr "A2", .jnum 2, .jstr "G2"⟩ : StoredBook)
          ∈ (putBooks ⟨2, [⟨0, .jstr "T0", .jstr "A0", .jnum 1, .jstr "G0"⟩,
                            ⟨1, .jstr "T1", .jstr "A1", .jnum 1, .jstr "G1"⟩]⟩ 0
              ⟨.jstr "T2", .jstr "A2", .jnum 2, .jstr "G2"⟩).store.docs)
    ∧ ((⟨1, .jstr "T1", .jstr "A1", .jnum 1, .jstr "G1"⟩ : StoredBook).id ≠ 0) := by
  have h1 := c4_round_trip.1 ⟨0, []⟩
    ⟨.jstr "Dune", .jstr "Herbert", .jnum 1965, .jstr "SciFi"⟩ (by decide)
  have h2 := (c4_round_trip.2.1 ⟨2, [⟨0, .jstr "T0", .jstr "A0", .jnum 1, .jstr "G0"⟩,
        ⟨1, .jstr "T1", .jstr "A1", .jnum 1, .jstr "G1"⟩]⟩ 0
      ⟨.jstr "T2", .jstr "A2", .jnum 2, .jstr "G2"⟩ (by decide)
      ⟨⟨0, .jstr "T0", .jstr "A0", .jnum 1, .jstr "G0"⟩, by simp, rfl⟩).1
  have h3 := c4_round_trip.2.2 ⟨2, [⟨0, .jstr "T0", .jstr "A0", .jnum 1, .jstr "G0"⟩,
        ⟨1, .jstr "T1", .jstr "A1", .jnum 1, .jstr "G1"⟩]⟩ 0 (by decide)
    ⟨1, .jstr "T1", .jstr "A1", .jnum 1, .jstr "G1"⟩
    (by exact List.mem_cons_self _ _)
  exact ⟨h1, h2, h3⟩

/- ------------------------------------------------------------------ -/
/- Claim theorems: news endpoint.                                      -/
/- ------------------------------------------------------------------ -/

theorem newsSuccessResponse_ok_shape (data : JVal) (r : HttpResponse)
    (h : newsSuccessResponse data = .ok r) : ∃ s, r = ⟨200, .jstr s⟩ := by
  unfold newsSuccessResponse at h
  split at h
  · exact absurd h (by simp)
  · split at h
    · exact absurd h (by simp)
    · split at h
      · exact absurd h (by simp)
      · simp only [Except.ok.injEq] at h
        exact ⟨_, h.symm⟩

/-- C6: every upstream outcome that is a transport failure or a non-2xx
response (whatever its payload, and whether or not that payload parses as
JSON) is answered 500 with the fixed generic error object — a constant
independent of the upstream payload, so no stack trace or upstream data can
appear in it. -/
theorem c6_upstream_failure_generic (o : FetchOutcome)
    (h : o = .transportError ∨ ∃ body, o = .response false body) :
    getNews o = ⟨500, newsErrorBody⟩ := by
  rcases h with rfl | ⟨body, rfl⟩
  · rfl
  · cases body <;> rfl

/-- Witness for C6: a transport failure, and a non-2xx response whose
payload carries upstream data. -/
theorem c6_upstream_failure_generic_witness :
    getNews .transportError = ⟨500, newsErrorBody⟩
    ∧ getNews (.response false (.ok (.jobj [("secret", .jstr "raw upstream payload")])))
        = ⟨500, newsErrorBody⟩ :=
  ⟨c6_upstream_failure_generic .transportError (Or.inl rfl),
   c6_upstream_failure_generic _ (Or.inr ⟨_, rfl⟩)⟩

/-- C10: the news handler is total over upstream outcomes and only ever
answers 200 (with a string body) or 500 with the generic error object; in
particular a 2xx upstream response whose body is not JSON, lacks an
`articles` array, or contains an article without a `source` object makes
the reshaping throw, and the catch turns it into the same generic 500. -/
theorem c10_news_handler_total :
    (∀ (query category country newsApiKey : Option String)
        (fetch : String → FetchOutcome),
        (∃ s, newsHandler query category country newsApiKey fetch = ⟨200, .jstr s⟩)
          ∨ newsHandler query category country newsApiKey fetch = ⟨500, newsErrorBody⟩)
    ∧ getNews (.response true (.error ())) = ⟨500, newsErrorBody⟩
    ∧ getNews (.response true (.ok (.jobj [("totalResults", .jnum 0)]))) = ⟨500, newsErrorBody⟩
    ∧ getNews (.response true (.ok (.jobj [("articles", .jarr [.jobj [("title", .jstr "t")]]),
        ("totalResults", .jnum 1)]))) = ⟨500, newsErrorBody⟩ := by
  refine ⟨fun query category country newsApiKey fetch => ?_, rfl, rfl, rfl⟩
  unfold newsHandler
  match fetch (buildNewsUrl query category country (interpolateKey newsApiKey)) with
  | .transportError => exact Or.inr rfl
  | .response ok bodyE =>
      match bodyE with
      | .error e => exact Or.inr rfl
      | .ok data =>
          cases ok with
          | false => exact Or.inr rfl
          | true =>
              cases hs : newsSuccessResponse data with
              | error e => exact Or.inr (by simp [getNews, hs])
              | ok r =>
                  obtain ⟨s, rfl⟩ := newsSuccessResponse_ok_shape data r hs
                  exact Or.inl ⟨s, by simp [getNews, hs]⟩

/-- C2, evaluated at a well-formed 2xx upstream response: the handler does
reshape each article to exactly the five fields (discarding the upstream
extras `status`, `author`, `content` and the `source.id`) and preserves the
article count, but it passes the shaped object through `JSON.stringify` and
then `res.json`, so the HTTP body is a JSON *string* containing the
serialized object — not the JSON object `{totalResults, articles}` that the
claim and the route's own OpenAPI annotation describe. -/
theorem c2_success_double_encoded :
    getNews (.response true (.ok (.jobj [("status", .jstr "ok"), ("totalResults", .jnum 1),
      ("articles", .jarr [.jobj [("source", .jobj [("id", .jnull), ("name", .jstr "BBC")]),
        ("author", .jstr "Ann"), ("title", .jstr "T"), ("description", .jstr "D"),
        ("url", .jstr "http://x"), ("publishedAt", .jstr "2020-01-01"),
        ("content", .jstr "C")]])])))
    = ⟨200, .jstr "\x7b\n  \"totalResults\": 1,\n  \"articles\": [\n    \x7b\n      \"title\": \"T\",\n      \"description\": \"D\",\n      \"source\": \"BBC\",\n      \"url\": \"http://x\",\n      \"publishedAt\": \"2020-01-01\"\n    \x7d\n  ]\n\x7d"⟩ := by
  rfl

/-- C8 counterexample: nothing fails at configuration time when the
credential is unset — the unset credential interpolates into the upstream
URL as the literal text `undefined`, the request is still dispatched
upstream, and an individual GET /news request fails at request time (500)
when the upstream then rejects it. -/
theorem c8_no_config_failure :
    interpolateKey none = "undefined"
    ∧ buildNewsUrl none none none (interpolateKey none)
        = "https://newsapi.org/v2/top-headlines?apiKey=undefined"
    ∧ newsHandler none none none none (fun _ => .response false (.ok .jnull))
        = ⟨500, newsErrorBody⟩ := by
  exact ⟨rfl, by rfl, rfl⟩

/-- C8 amended: the credential is read once at startup, but its absence is
never checked: with the credential unset each GET /news request still builds
an upstream URL whose `apiKey` value is the literal text `undefined`, and
fails at request time with the generic 500 when the upstream rejects that
request. -/
theorem c8_unset_key_request_time (q c co : Option String)
    (fetch : String → FetchOutcome) (b : Except Unit JVal)
    (h : fetch (buildNewsUrl q c co "undefined") = .response false b) :
    interpolateKey none = "undefined"
    ∧ newsHandler q c co none fetch = ⟨500, newsErrorBody⟩ := by
  have hkey : interpolateKey none = "undefined" := rfl
  refine ⟨hkey, ?_⟩
  unfold newsHandler
  rw [hkey, h]
  cases b <;> rfl

/-- Witness for the amended C8 at a concrete upstream behavior. -/
theorem c8_unset_key_request_time_witness :
    (((fun _ => FetchOutcome.response false (Except.ok JVal.jnull)) : String → FetchOutcome)
        (buildNewsUrl none none none "undefined") = .response false (.ok .jnull))
    ∧ interpolateKey none = "undefined"
    ∧ newsHandler none none none none (fun _ => .response false (.ok .jnull))
        = ⟨500, newsErrorBody⟩ := by
  have h := c8_unset_key_request_time none none none
    (fun _ => .response false (.ok .jnull)) (.ok .jnull) rfl
  exact ⟨rfl, h.1, h.2⟩

/- ------------------------------------------------------------------ -/
/- Claim C5: which filters are sent upstream.                          -/
/- ------------------------------------------------------------------ -/

/-- The query string denoted by a parameter list: `name=value` segments
joined by `&`. -/
def renderQuery : List (List Char × List Char) → List Char
  | [] => []
  | [(nm, v)] => nm ++ '=' :: v
  | (nm, v) :: rest => nm ++ '=' :: (v ++ '&' :: renderQuery rest)

theorem splitOnChar_ne_nil (sep : Char) (l : List Char) : splitOnChar sep l ≠ [] := by
  induction l with
  | nil => simp [splitOnChar]
  | cons c cs ih =>
      unfold splitOnChar
      cases h : splitOnChar sep cs with
      | nil => exact absurd h ih
      | cons p ps =>
          by_cases hc : c = sep <;> simp [hc]

theorem splitOnChar_cons_head (sep : Char) (l : List Char) :
    ∃ p ps, splitOnChar sep l = p :: ps := by
  cases h : splitOnChar sep l with
  | nil => exact absurd h (splitOnChar_ne_nil sep l)
  | cons p ps => exact ⟨p, ps, rfl⟩

theorem splitOnChar_of_not_mem (sep : Char) (xs : List Char) (h : sep ∉ xs) :
    splitOnChar sep xs = [xs] := by
  induction xs with
  | nil => rfl
  | cons c cs ih =>
      have hc : c ≠ sep := fun hcc => h (by simp [hcc])
      have hcs : sep ∉ cs := fun hm => h (by simp [hm])
      unfold splitOnChar
      rw [ih hcs]
      simp [hc]

theorem splitOnChar_cons (sep c : Char) (cs : List Char) :
    splitOnChar sep (c :: cs) =
      match splitOnChar sep cs with
      | [] => [[]]
      | p :: ps => if c = sep then [] :: p :: ps else (c :: p) :: ps := rfl

theorem splitOnChar_append (sep : Char) (xs ys : List Char) (h : sep ∉ xs) :
    splitOnChar sep (xs ++ sep :: ys) = xs :: splitOnChar sep ys := by
  induction xs with
  | nil =>
      obtain ⟨p, ps, hps⟩ := splitOnChar_cons_head sep ys
      simp [splitOnChar, hps]
  | cons c cs ih =>
      have hc : c ≠ sep := fun hcc => h (by simp [hcc])
      have hcs : sep ∉ cs := fun hm => h (by simp [hm])
      rw [List.cons_append, splitOnChar_cons, ih hcs]
      simp [hc]

theorem paramName_append (nm v : List Char) (h : '=' ∉ nm) :
    paramName (nm ++ '=' :: v) = nm := by
  induction nm with
  | nil => simp [paramName]
  | cons c cs ih =>
      have hc : c ≠ '=' := fun hcc => h (by simp [hcc])
      have hcs : ('=' : Char) ∉ cs := fun hm => h (by simp [hm])
      simpa [paramName, hc] using ih hcs

theorem paramValue_append (nm v : List Char) (h : '=' ∉ nm) :
    paramValue (nm ++ '=' :: v) = v := by
  induction nm with
  | nil => simp [paramValue]
  | cons c cs ih =>
      have hc : c ≠ '=' := fun hcc => h (by simp [hcc])
      have hcs : ('=' : Char) ∉ cs := fun hm => h (by simp [hm])
      simpa [paramValue, hc] using ih hcs

theorem urlParams_render (ps : List (List Char × List Char)) (hne : ps ≠ [])
    (h : ∀ p ∈ ps, '=' ∉ p.1 ∧ '&' ∉ p.1 ∧ '&' ∉ p.2) :
    (splitOnChar '&' (renderQuery ps)).map (fun seg => (paramName seg, paramValue seg))
      = ps := by
  induction ps with
  | nil => exact absurd rfl hne
  | cons p rest ih =>
      obtain ⟨nm, v⟩ := p
      obtain ⟨h1, h2, h3⟩ := h (nm, v) (by simp)
      cases rest with
      | nil =>
          have hseg : ('&' : Char) ∉ nm ++ '=' :: v := by
            simp only [List.mem_append, List.mem_cons]
            push_neg
            exact ⟨h2, by decide, h3⟩
          rw [show renderQuery [(nm, v)] = nm ++ '=' :: v from rfl,
              splitOnChar_of_not_mem _ _ hseg]
          simp [paramName_append nm v h1, paramValue_append nm v h1]
      | cons p2 rest2 =>
          have hshape : renderQuery ((nm, v) :: p2 :: rest2)
              = (nm ++ '=' :: v) ++ '&' :: renderQuery (p2 :: rest2) := by
            simp [renderQuery]
          have hseg : ('&' : Char) ∉ nm ++ '=' :: v := by
            simp only [List.mem_append, List.mem_cons]
            push_neg
            exact ⟨h2, by decide, h3⟩
          rw [hshape, splitOnChar_append _ _ _ hseg, List.map_cons,
              ih (by simp) (fun x hx => h x (by simp [hx]))]
          simp [paramName_append nm v h1, paramValue_append nm v h1]

theorem dropWhile_until (pre rest : List Char) (h : ∀ c ∈ pre, c ≠ '?') :
    List.dropWhile (fun c => !(c = '?')) (pre ++ '?' :: rest) = '?' :: rest := by
  induction pre with
  | nil => simp [List.dropWhile]
  | cons c cs ih =>
      have hc : c ≠ '?' := h c (by simp)
      have hcs : ∀ x ∈ cs, x ≠ '?' := fun x hx => h x (by simp [hx])
      simpa [List.dropWhile_cons, hc] using ih hcs

theorem urlParams_of_data (u : String) (tail : List Char)
    (h : u.data = "https://newsapi.org/v2/top-headlines?".data ++ tail) :
    urlParams u = (splitOnChar '&' tail).map (fun seg => (paramName seg, paramValue seg)) := by
  have hbase : "https://newsapi.org/v2/top-headlines?".data
      = "https://newsapi.org/v2/top-headlines".data ++ [ '?' ] := by decide
  unfold urlParams queryPart
  rw [h, hbase, List.append_assoc, List.singleton_append]
  rw [dropWhile_until _ _ (by decide)]
  rfl

/-- C5: the upstream URL built by the news handler carries exactly the
filters the caller supplied plus the `apiKey` parameter: an omitted or
empty filter contributes no query parameter, and a supplied filter
contributes exactly its own parameter, independently of the other two
(stated for filter values and key not containing the separator `&`, which
the handler forwards unescaped). -/
theorem c5_url_filters (q c co : Option String) (key : String)
    (hq : '&' ∉ (q.getD "").data) (hc : '&' ∉ (c.getD "").data)
    (hco : '&' ∉ (co.getD "").data) (hk : '&' ∉ key.data) :
    urlParams (buildNewsUrl q c co key) =
      (if optTruthy q then [("q".data, (q.getD "").data)] else [])
      ++ (if optTruthy c then [("category".data, (c.getD "").data)] else [])
      ++ (if optTruthy co then [("country".data, (co.getD "").data)] else [])
      ++ [("apiKey".data, key.data)] := by
  have e1 : "q=".data = [ 'q', '=' ] := by decide
  have e2 : "category=".data = [ 'c', 'a', 't', 'e', 'g', 'o', 'r', 'y', '=' ] := by decide
  have e3 : "country=".data = [ 'c', 'o', 'u', 'n', 't', 'r', 'y', '=' ] := by decide
  have e4 : "apiKey=".data = [ 'a', 'p', 'i', 'K', 'e', 'y', '=' ] := by decide
  have e5 : "&".data = [ '&' ] := by decide
  have n1 : "q".data = [ 'q' ] := by decide
  have n2 : "category".data = [ 'c', 'a', 't', 'e', 'g', 'o', 'r', 'y' ] := by decide
  have n3 : "country".data = [ 'c', 'o', 'u', 'n', 't', 'r', 'y' ] := by decide
  have n4 : "apiKey".data = [ 'a', 'p', 'i', 'K', 'e', 'y' ] := by decide
  cases htq : optTruthy q <;> cases htc : optTruthy c <;> cases htco : optTruthy co
  · have hd : (buildNewsUrl q c co key).data
        = "https://newsapi.org/v2/top-headlines?".data
          ++ renderQuery [("apiKey".data, key.data)] := by
      simp [buildNewsUrl, htq, htc, htco, String.data_append, renderQuery,
            e1, e2, e3, e4, e5, n1, n2, n3, n4]
    have hm : ∀ p ∈ [(("apiKey".data : List Char), key.data)],
        '=' ∉ p.1 ∧ '&' ∉ p.1 ∧ '&' ∉ p.2 := by
      intro p hp
      simp only [List.mem_cons, List.not_mem_nil, or_false] at hp
      subst hp
      exact ⟨(by decide : ('=' : Char) ∉ "apiKey".data), (by decide : ('&' : Char) ∉ "apiKey".data), hk⟩
    rw [urlParams_of_data _ _ hd, urlParams_render _ (by simp) hm]
    simp [htq, htc, htco]
  · have hd : (buildNewsUrl q c co key).data
        = "https://newsapi.org/v2/top-headlines?".data
          ++ renderQuery [("country".data, (co.getD "").data), ("apiKey".data, key.data)] := by
      simp [buildNewsUrl, htq, htc, htco, String.data_append, renderQuery,
            e1, e2, e3, e4, e5, n1, n2, n3, n4]
    have hm : ∀ p ∈ [(("country".data : List Char), (co.getD "").data),
          ("apiKey".data, key.data)],
        '=' ∉ p.1 ∧ '&' ∉ p.1 ∧ '&' ∉ p.2 := by
      intro p hp
      simp only [List.mem_cons, List.not_mem_nil, or_false] at hp
      rcases hp with rfl | rfl
      · exact ⟨(by decide : ('=' : Char) ∉ "country".data), (by decide : ('&' : Char) ∉ "country".data), hco⟩
      · exact ⟨(by decide : ('=' : Char) ∉ "apiKey".data), (by decide : ('&' : Char) ∉ "apiKey".data), hk⟩
    rw [urlParams_of_data _ _ hd, urlParams_render _ (by simp) hm]
    simp [htq, htc, htco]
  · have hd : (buildNewsUrl q c co key).data
        = "https://newsapi.org/v2/top-headlines?".data
          ++ renderQuery [("category".data, (c.getD "").data), ("apiKey".data, key.data)] := by
      simp [buildNewsUrl, htq, htc, htco, String.data_append, renderQuery,
            e1, e2, e3, e4, e5, n1, n2, n3, n4]
    have hm : ∀ p ∈ [(("category".data : List Char), (c.getD "").data),
          ("apiKey".data, key.data)],
        '=' ∉ p.1 ∧ '&' ∉ p.1 ∧ '&' ∉ p.2 := by
      intro p hp
      simp only [List.mem_cons, List.not_mem_nil, or_false] at hp
      rcases hp with rfl | rfl
      · exact ⟨(by decide : ('=' : Char) ∉ "category".data), (by decide : ('&' : Char) ∉ "category".data), hc⟩
      · exact ⟨(by decide : ('=' : Char) ∉ "apiKey".data), (by decide : ('&' : Char) ∉ "apiKey".data), hk⟩
    rw [urlParams_of_data _ _ hd, urlParams_render _ (by simp) hm]
    simp [htq, htc, htco]
  · have hd : (buildNewsUrl q c co key).data
        = "https://newsapi.org/v2/top-headlines?".data
          ++ renderQuery [("category".data, (c.getD "").data),
                          ("country".data, (co.getD "").data), ("apiKey".data, key.data)] := by
      simp [buildNewsUrl, htq, htc, htco, String.data_append, renderQuery,
            e1, e2, e3, e4, e5, n1, n2, n3, n4]
    have hm : ∀ p ∈ [(("category".data : List Char), (c.getD "").data),
          ("country".data, (co.getD "").data), ("apiKey".data, key.data)],
        '=' ∉ p.1 ∧ '&' ∉ p.1 ∧ '&' ∉ p.2 := by
      intro p hp
      simp only [List.mem_cons, List.not_mem_nil, or_false] at hp
      rcases hp with rfl | rfl | rfl
      · exact ⟨(by decide : ('=' : Char) ∉ "category".data), (by decide : ('&' : Char) ∉ "category".data), hc⟩
      · exact ⟨(by decide : ('=' : Char) ∉ "country".data), (by decide : ('&' : Char) ∉ "country".data), hco⟩
      · exact ⟨(by decide : ('=' : Char) ∉ "apiKey".data), (by decide : ('&' : Char) ∉ "apiKey".data), hk⟩
    rw [urlParams_of_data _ _ hd, urlParams_render _ (by simp) hm]
    simp [htq, htc, htco]
  · have hd : (buildNewsUrl q c co key).data
        = "https://newsapi.org/v2/top-headlines?".data
          ++ renderQuery [("q".data, (q.getD "").data), ("apiKey".data, key.data)] := by
      simp [buildNewsUrl, htq, htc, htco, String.data_append, renderQuery,
            e1, e2, e3, e4, e5, n1, n2, n3, n4]
    have hm : ∀ p ∈ [(("q".data : List Char), (q.getD "").data),
          ("apiKey".data, key.data)],
        '=' ∉ p.1 ∧ '&' ∉ p.1 ∧ '&' ∉ p.2 := by
      intro p hp
      simp only [List.mem_cons, List.not_mem_nil, or_false] at hp
      rcases hp with rfl | rfl
      · exact ⟨(by decide : ('=' : Char) ∉ "q".data), (by decide : ('&' : Char) ∉ "q".data), hq⟩
      · exact ⟨(by decide : ('=' : Char) ∉ "apiKey".data), (by decide : ('&' : Char) ∉ "apiKey".data), hk⟩
    rw [urlParams_of_data _ _ hd, urlParams_render _ (by simp) hm]
    simp [htq, htc, htco]
  · have hd : (buildNewsUrl q c co key).data
        = "https://newsapi.org/v2/top-headlines?".data
          ++ renderQuery [("q".data, (q.getD "").data),
                          ("country".data, (co.getD "").data), ("apiKey".data, key.data)] := by
      simp [buildNewsUrl, htq, htc, htco, String.data_append, renderQuery,
            e1, e2, e3, e4, e5, n1, n2, n3, n4]
    have hm : ∀ p ∈ [(("q".data : List Char), (q.getD "").data),
          ("country".data, (co.getD "").data), ("apiKey".data, key.data)],
        '=' ∉ p.1 ∧ '&' ∉ p.1 ∧ '&' ∉ p.2 := by
      intro p hp
      simp only [List.mem_cons, List.not_mem_nil, or_false] at hp
      rcases hp with rfl | rfl | rfl
      · exact ⟨(by decide : ('=' : Char) ∉ "q".data), (by decide : ('&' : Char) ∉ "q".data), hq⟩
      · exact ⟨(by decide : ('=' : Char) ∉ "country".data), (by decide : ('&' : Char) ∉ "country".data), hco⟩
      · exact ⟨(by decide : ('=' : Char) ∉ "apiKey".data), (by decide : ('&' : Char) ∉ "apiKey".data), hk⟩
    rw [urlParams_of_data _ _ hd, urlParams_render _ (by simp) hm]
    simp [htq, htc, htco]
  · have hd : (buildNewsUrl q c co key).data
        = "https://newsapi.org/v2/top-headlines?".data
          ++ renderQuery [("q".data, (q.getD "").data),
                          ("category".data, (c.getD "").data), ("apiKey".data, key.data)] := by
      simp [buildNewsUrl, htq, htc, htco, String.data_append, renderQuery,
            e1, e2, e3, e4, e5, n1, n2, n3, n4]
    have hm : ∀ p ∈ [(("q".data : List Char), (q.getD "").data),
          ("category".data, (c.getD "").data), ("apiKey".data, key.data)],
        '=' ∉ p.1 ∧ '&' ∉ p.1 ∧ '&' ∉ p.2 := by
      intro p hp
      simp only [List.mem_cons, List.not_mem_nil, or_false] at hp
      rcases hp with rfl | rfl | rfl
      · exact ⟨(by decide : ('=' : Char) ∉ "q".data), (by decide : ('&' : Char) ∉ "q".data), hq⟩
      · exact ⟨(by decide : ('=' : Char) ∉ "category".data), (by decide : ('&' : Char) ∉ "category".data), hc⟩
      · exact ⟨(by decide : ('=' : Char) ∉ "apiKey".data), (by decide : ('&' : Char) ∉ "apiKey".data), hk⟩
    rw [urlParams_of_data _ _ hd, urlParams_render _ (by simp) hm]
    simp [htq, htc, htco]
  · have hd : (buildNewsUrl q c co key).data
        = "https://newsapi.org/v2/top-headlines?".data
          ++ renderQuery [("q".data, (q.getD "").data), ("category".data, (c.getD "").data),
                          ("country".data, (co.getD "").data), ("apiKey".data, key.data)] := by
      simp [buildNewsUrl, htq, htc, htco, String.data_append, renderQuery,
            e1, e2, e3, e4, e5, n1, n2, n3, n4]
    have hm : ∀ p ∈ [(("q".data : List Char), (q.getD "").data),
          ("category".data, (c.getD "").data), ("country".data, (co.getD "").data),
          ("apiKey".data, key.data)],
        '=' ∉ p.1 ∧ '&' ∉ p.1 ∧ '&' ∉ p.2 := by
      intro p hp
      simp only [List.mem_cons, List.not_mem_nil, or_false] at hp
      rcases hp with rfl | rfl | rfl | rfl
      · exact ⟨(by decide : ('=' : Char) ∉ "q".data), (by decide : ('&' : Char) ∉ "q".data), hq⟩
      · exact ⟨(by decide : ('=' : Char) ∉ "category".data), (by decide : ('&' : Char) ∉ "category".data), hc⟩
      · exact ⟨(by decide : ('=' : Char) ∉ "country".data), (by decide : ('&' : Char) ∉ "country".data), hco⟩
      · exact ⟨(by decide : ('=' : Char) ∉ "apiKey".data), (by decide : ('&' : Char) ∉ "apiKey".data), hk⟩
    rw [urlParams_of_data _ _ hd, urlParams_render _ (by simp) hm]
    simp [htq, htc, htco]

/-- Witness for C5: query and country supplied, category omitted. -/
theorem c5_url_filters_witness :
    ('&' ∉ ("bitcoin" : String).data)
    ∧ urlParams (buildNewsUrl (some "bitcoin") none (some "us") "SECRET")
        = [("q".data, "bitcoin".data), ("country".data, "us".data),
           ("apiKey".data, "SECRET".data)] := by
  have h := c5_url_filters (some "bitcoin") none (some "us") "SECRET"
    (by decide) (by decide) (by decide) (by decide)
  refine ⟨by decide, ?_⟩
  simpa [optTruthy] using h

end BookNews
